import Mathlib

/-!
Shallow embedding of the idfine chat widget's streaming core:
the connection manager (`WebSocketClient.ts`) and the streaming
session controller (`ChatWidget.ts`), with theorems about the
streaming-message protocol.

Timers, the DOM and the network are modelled as explicit state and
event lists: each source method becomes a pure function from the
component's state (plus the ambient millisecond clock, passed as a
`Nat`) to a new state together with the externally observable
effects it produces.
-/

/-- A retrieval source reference attached to an assistant turn
(`Source` in `types.ts`).  The relevance score (a float the code only
stores, never computes with) is modelled as an `Int`. -/
structure SourceRef where
  document : String
  chunk_index : Nat
  score : Int
deriving DecidableEq

/-- Author role of a conversation turn. -/
inductive Role
  | user
  | assistant
  | system
deriving DecidableEq

/-- One conversation turn (`ChatMessage` in `types.ts`).  The optional
`isStreaming` flag of the source is modelled as a `Bool` defaulting to
`false`, since an absent flag and a `false` flag behave identically in
the code.  `timestamp` is the millisecond clock value at creation. -/
structure Turn where
  id : String
  role : Role
  content : String
  sources : Option (List SourceRef)
  intent : Option String
  timestamp : Nat
  isStreaming : Bool
deriving DecidableEq

/-- Inbound live-channel message (`WSIncoming` in `types.ts`). -/
inductive WSIncoming
  | stream_start (message_id : String)
  | stream_chunk (message_id : String) (content : String)
  | stream_end (message_id : String) (conversation_id : Option String)
      (sources : List SourceRef) (intent : String)
  | error (message : String)
  | system (content : String) (event : Option String)
deriving DecidableEq

/-- Observable rendering-layer effects of the controller: the DOM
writes of `addMessage` (for a streaming placeholder),
`updateStreamingMessage` and `finalizeMessage` / the simulated reveal,
which are the content-update events external consumers see. -/
inductive UiEvent
  | turnStarted (id : String)
  | contentUpdate (id : String) (content : String)
  | finalized (id : String) (content : String)
deriving DecidableEq

/-- Outbound requests the controller can issue on a submission. -/
inductive OutRequest
  | wsSend (content : String) (conversation_id : Option String)
  | restRequest (content : String) (conversation_id : Option String)
deriving DecidableEq

/-- Controller state: the mutable fields of the `ChatWidget` class
that the streaming protocol touches.  `inputDisabled` stands for the
pair `sendBtn.disabled` / `textarea.disabled`, which the code always
sets together; `typingIndicator` records whether the typing-indicator
row is present in the DOM. -/
structure ChatWidget where
  messages : List Turn
  conversationId : String
  isStreaming : Bool
  currentStreamId : String
  currentStreamContent : String
  inputDisabled : Bool
  typingIndicator : Bool
deriving DecidableEq

/-- Field-initializer state of a fresh `ChatWidget` instance. -/
def initChatWidget : ChatWidget :=
  { messages := [], conversationId := "", isStreaming := false
  , currentStreamId := "", currentStreamContent := ""
  , inputDisabled := false, typingIndicator := false }

/-- Replace the first element satisfying `p` (the lookup discipline of
`this.messages.find(...)` followed by in-place mutation). -/
def updateFirst (p : Turn → Bool) (f : Turn → Turn) : List Turn → List Turn
  | [] => []
  | t :: ts => if p t then f t :: ts else t :: updateFirst p f ts

/-- First turn with the given id, as `messages.find(m => m.id === id)`. -/
def findTurn (msgs : List Turn) (id : String) : Option Turn :=
  msgs.find? (fun t => t.id == id)

/-- `ChatWidget.handleWSMessage`: one inbound live-channel signal.
Returns the new controller state and the rendering events emitted.
A `contentUpdate` / `finalized` event is emitted exactly when a DOM
element for the given id exists, i.e. when some turn with that id has
been added (`shadow.getElementById` in the source). -/
def handleWSMessage (s : ChatWidget) (now : Nat) : WSIncoming → ChatWidget × List UiEvent
  | .stream_start mid =>
      let placeholder : Turn :=
        { id := mid, role := .assistant, content := ""
        , sources := none, intent := none, timestamp := now, isStreaming := true }
      ({ s with isStreaming := true, currentStreamId := mid
              , currentStreamContent := "", typingIndicator := false
              , messages := s.messages ++ [placeholder] },
       [.turnStarted mid])
  | .stream_chunk mid c =>
      ({ s with currentStreamContent := s.currentStreamContent ++ c },
       if s.messages.any (fun t => t.id == mid) then
         [.contentUpdate mid (s.currentStreamContent ++ c)]
       else [])
  | .stream_end mid cid srcs it =>
      let newConv :=
        match cid with
        | some c => if c = "" then s.conversationId else c
        | none => s.conversationId
      let fin : Turn → Turn := fun t =>
        { t with content := s.currentStreamContent
               , sources := some srcs, intent := some it, isStreaming := false }
      ({ s with isStreaming := false, conversationId := newConv
              , messages := updateFirst (fun t => t.id == mid) fin s.messages
              , inputDisabled := false },
       if s.messages.any (fun t => t.id == mid) then
         [.finalized mid s.currentStreamContent]
       else [])
  | .error msg =>
      let errTurn : Turn :=
        { id := toString now, role := .assistant, content := msg
        , sources := none, intent := none, timestamp := now, isStreaming := false }
      ({ s with typingIndicator := false, isStreaming := false
              , messages := s.messages ++ [errTurn]
              , inputDisabled := false },
       [])
  | .system c _ =>
      let sysTurn : Turn :=
        { id := toString now, role := .system, content := c
        , sources := none, intent := none, timestamp := now, isStreaming := false }
      ({ s with typingIndicator := false
              , messages := s.messages ++ [sysTurn] },
       [])

/-- Deliver a list of live-channel signals in order, collecting the
emitted rendering events. -/
def runWS (s : ChatWidget) (now : Nat) : List WSIncoming → ChatWidget × List UiEvent
  | [] => (s, [])
  | e :: es =>
      let r1 := handleWSMessage s now e
      let r2 := runWS r1.1 now es
      (r2.1, r1.2 ++ r2.2)

/-- JavaScript `String.prototype.trim` on the character list (strip
leading and trailing whitespace). -/
def trimWs (s : String) : String :=
  ⟨((s.data.dropWhile Char.isWhitespace).reverse.dropWhile Char.isWhitespace).reverse⟩

/-- `ChatWidget.sendMessage`: the submit entry point.  `wsConnected`
is `this.ws?.isConnected`.  Returns the new state and the outbound
request issued, if any. -/
def sendMessage (s : ChatWidget) (now : Nat) (raw : String) (wsConnected : Bool) :
    ChatWidget × Option OutRequest :=
  let content := trimWs raw
  if content = "" ∨ s.isStreaming then (s, none)
  else
    let userTurn : Turn :=
      { id := toString now, role := .user, content := content
      , sources := none, intent := none, timestamp := now, isStreaming := false }
    let s1 := { s with messages := s.messages ++ [userTurn]
                     , typingIndicator := true, inputDisabled := true }
    let convOpt := if s.conversationId = "" then none else some s.conversationId
    if wsConnected then (s1, some (.wsSend content convOpt))
    else (s1, some (.restRequest content convOpt))

/-- Body of the fallback (`/api/widget/message`) response. -/
structure RestResponse where
  conversation_id : String
  message_id : Option String
  content : String
  sources : Option (List SourceRef)
  intent : Option String
deriving DecidableEq

/-- The id of the simulated-typing bubble:
`data.message_id || Date.now().toString()` (empty string is falsy). -/
def restMsgId (now : Nat) (r : RestResponse) : String :=
  match r.message_id with
  | some mid => if mid = "" then toString now else mid
  | none => toString now

/-- First phase of `ChatWidget.sendViaRest` after the response
arrives: remove the typing indicator, store the conversation id and
append the streaming-style placeholder bubble. -/
def restStart (s : ChatWidget) (now : Nat) (r : RestResponse) : ChatWidget :=
  let placeholder : Turn :=
    { id := restMsgId now r, role := .assistant, content := ""
    , sources := none, intent := none, timestamp := now, isStreaming := true }
  { s with typingIndicator := false
         , conversationId := r.conversation_id
         , messages := s.messages ++ [placeholder] }

/-- The simulated-delivery interval of `sendViaRest`: each tick draws
a chunk size (`Math.floor(Math.random() * 6) + 3`, i.e. 3 to 8),
advances the reveal position, and either writes the next text slice
or finalizes the bubble with the full text.  The random draws are the
`sizes` argument; `none` means the supply of draws ran out before the
reveal finished (the real interval never stops early). -/
def revealGo (mid fullText : String) : List Nat → Nat → Option (List UiEvent)
  | [], _ => none
  | r :: rs, i =>
      let i2 := i + r
      if fullText.length ≤ i2 then some [.finalized mid fullText]
      else (revealGo mid fullText rs i2).map
        (fun evs => .contentUpdate mid (fullText.take i2) :: evs)

/-- Final phase of `sendViaRest`: update the stored message with the
full text, sources and intent, clear its accumulating flag, and
(in the `finally` block) re-enable the input. -/
def restFinish (s : ChatWidget) (r : RestResponse) (mid : String) : ChatWidget :=
  let upd : Turn → Turn := fun t =>
    { t with content := r.content, sources := r.sources
           , intent := r.intent, isStreaming := false }
  { s with messages := updateFirst (fun t => t.id == mid) upd s.messages
         , inputDisabled := false }

/-- `ChatWidget.sendViaRest`, successful-response path, end to end:
placeholder, simulated reveal, stored-message update.  Returns the
final state and the full rendering event sequence. -/
def sendViaRestSuccess (s : ChatWidget) (now : Nat) (r : RestResponse)
    (sizes : List Nat) : Option (ChatWidget × List UiEvent) :=
  match revealGo (restMsgId now r) r.content sizes 0 with
  | none => none
  | some evs =>
      some (restFinish (restStart s now r) r (restMsgId now r),
            UiEvent.turnStarted (restMsgId now r) :: evs)

/-- The fixed localized apology of the fallback failure handler. -/
def apologyText : String := "Bağlantı hatası oluştu. Lütfen tekrar deneyin."

/-- The synthetic assistant turn the fallback failure handler appends
(`addMessage` in the catch block, id `Date.now().toString()`). -/
def apologyTurn (now : Nat) : Turn :=
  { id := toString now, role := .assistant, content := apologyText
  , sources := none, intent := none, timestamp := now, isStreaming := false }

/-- `ChatWidget.sendViaRest`, catch-and-finally path (network error or
failed parse): remove the typing indicator, append one synthetic
assistant turn with the apology text, re-enable the input.  The
returned `OutRequest` list is the outbound requests this path issues:
the handler performs none, so it is always empty. -/
def sendViaRestFailure (s : ChatWidget) (now : Nat) : ChatWidget × List OutRequest :=
  ({ s with typingIndicator := false
          , messages := s.messages ++ [apologyTurn now]
          , inputDisabled := false },
   [])

/-- Outcome of the fallback `fetch` as the runtime delivers it: the
promise rejects (network error), or an HTTP response arrives with a
success flag (`response.ok`) and a body — `none` when the body is not
valid JSON, so `response.json()` throws.  `fetch` does not reject on
HTTP error statuses. -/
inductive FetchOutcome
  | networkError
  | response (ok : Bool) (body : Option RestResponse)
deriving DecidableEq

/-- `ChatWidget.sendViaRest`, full dispatch on the fetch outcome.  The
source never reads `response.ok`, so the status flag is discarded
here exactly as there: every response whose body parses as JSON takes
the success path, and only a rejected fetch or a failed parse reaches
the catch handler. -/
def sendViaRest (s : ChatWidget) (now : Nat) (sizes : List Nat) :
    FetchOutcome → Option (ChatWidget × List UiEvent)
  | .networkError => some ((sendViaRestFailure s now).1, [])
  | .response _ none => some ((sendViaRestFailure s now).1, [])
  | .response _ (some r) => sendViaRestSuccess s now r sizes

/-- A non-success (HTTP 500 style) response whose JSON body happens to
carry the fields the success path reads. -/
def nonSuccessBody : RestResponse :=
  { conversation_id := "c1", message_id := some "e1", content := "oops"
  , sources := none, intent := none }

/-! ## Connection manager (`WebSocketClient.ts`) -/

/-- Transport readiness of the owned socket. -/
inductive ReadyState
  | connecting
  | opened
  | closed
deriving DecidableEq

/-- State of a `WebSocketClient` instance.  `wsState` is `this.ws`
(`none` when null, otherwise the socket's readiness); `pingActive`
records whether the keep-alive interval is set; `reconnectTimeout` is
the pending backoff delay, if a reconnect is scheduled;
`socketsOpened` is a ghost counter of transports ever opened. -/
structure WSClient where
  wsState : Option ReadyState
  reconnectAttempts : Nat
  maxReconnectAttempts : Nat
  reconnectTimeout : Option Nat
  pingActive : Bool
  socketsOpened : Nat
deriving DecidableEq

/-- Field-initializer state of a fresh `WebSocketClient`. -/
def initWSClient : WSClient :=
  { wsState := none, reconnectAttempts := 0, maxReconnectAttempts := 5
  , reconnectTimeout := none, pingActive := false, socketsOpened := 0 }

/-- Externally observable effects of the connection manager. -/
inductive WSEffect
  | opened_socket
  | scheduled_reconnect (delay : Nat)
  | sent_ping
deriving DecidableEq

/-- `WebSocketClient.connect`: unconditionally construct a new
`WebSocket` (no state guard exists in the source) and install the
handlers. -/
def connect (s : WSClient) : WSClient × List WSEffect :=
  ({ s with wsState := some .connecting, socketsOpened := s.socketsOpened + 1 },
   [.opened_socket])

/-- The `onopen` handler: reset the attempt counter, start the
keep-alive interval, report availability upward. -/
def handleOpen (s : WSClient) : WSClient :=
  { s with wsState := some .opened, reconnectAttempts := 0, pingActive := true }

/-- `WebSocketClient.stopPing`. -/
def stopPing (s : WSClient) : WSClient :=
  { s with pingActive := false }

/-- `WebSocketClient.tryReconnect`: abandon once the attempt counter
reaches the maximum, otherwise schedule `connect` after
`min(1000 * 2 ^ attempts, 30000)` ms and increment the counter. -/
def tryReconnect (s : WSClient) : WSClient × List WSEffect :=
  if s.maxReconnectAttempts ≤ s.reconnectAttempts then (s, [])
  else
    let delay := min (1000 * 2 ^ s.reconnectAttempts) 30000
    ({ s with reconnectAttempts := s.reconnectAttempts + 1
            , reconnectTimeout := some delay },
     [.scheduled_reconnect delay])

/-- The `onclose` handler: stop the keep-alive, report unavailability
upward, try to reconnect.  The socket that fired is marked closed. -/
def handleClose (s : WSClient) : WSClient × List WSEffect :=
  tryReconnect (stopPing { s with wsState := none })

/-- `WebSocketClient.disconnect`: zero the attempt maximum, stop the
keep-alive, cancel any pending reconnect timer, close and drop the
socket. -/
def disconnect (s : WSClient) : WSClient :=
  { s with maxReconnectAttempts := 0, pingActive := false
         , reconnectTimeout := none, wsState := none }

/-- One tick of the keep-alive interval: it can only fire while the
interval is set, and `send` transmits only on an open socket. -/
def pingTick (s : WSClient) : WSClient × List WSEffect :=
  if s.pingActive then
    (s, if s.wsState = some .opened then [.sent_ping] else [])
  else (s, [])

/-- Firing of a scheduled reconnect timeout: calls `connect`. -/
def reconnectTick (s : WSClient) : WSClient × List WSEffect :=
  match s.reconnectTimeout with
  | none => (s, [])
  | some _ => connect { s with reconnectTimeout := none }

/-- Events that can still occur after the transport has been closed by
`disconnect`: the residual `onclose` / `onerror` / `onmessage`
callbacks of the discarded socket, and timer fires.  A socket on which
`close()` has been called never fires `onopen`, so no open event
appears here. -/
inductive ClosedEvent
  | closeFired
  | errorFired
  | messageFired
  | pingTimer
  | reconnectTimer
deriving DecidableEq

/-- Dispatch one post-shutdown event. -/
def stepClosed (s : WSClient) : ClosedEvent → WSClient × List WSEffect
  | .closeFired => handleClose s
  | .errorFired => (s, [])
  | .messageFired => (s, [])
  | .pingTimer => pingTick s
  | .reconnectTimer => reconnectTick s

/-- Run a sequence of post-shutdown events, collecting effects. -/
def runClosed (s : WSClient) : List ClosedEvent → WSClient × List WSEffect
  | [] => (s, [])
  | e :: es =>
      let r1 := stepClosed s e
      let r2 := runClosed r1.1 es
      (r2.1, r1.2 ++ r2.2)

/-! ## Derived notions used by the theorems -/

/-- Concatenation of a list of strings in order. -/
def concatList : List String → String
  | [] => ""
  | c :: cs => c ++ concatList cs

/-- The signal sequence of one complete live-path delivery:
a start, the chunks in order, then the end signal. -/
def liveSignals (m : String) (cs : List String) (cid : Option String)
    (srcs : List SourceRef) (it : String) : List WSIncoming :=
  WSIncoming.stream_start m ::
    (cs.map (WSIncoming.stream_chunk m) ++ [WSIncoming.stream_end m cid srcs it])

/-- Shape tag of a rendering event. -/
inductive Tag
  | started
  | updated
  | finished
deriving DecidableEq

/-- Forget event payloads, keeping only the shape. -/
def tagOf : UiEvent → Tag
  | .turnStarted _ => .started
  | .contentUpdate _ _ => .updated
  | .finalized _ _ => .finished

/-- Modelled from the spec: the event-sequence shape both delivery
paths must exhibit — a start, then one or more content updates, then
a finalize. -/
def goodShape (tags : List Tag) : Prop :=
  ∃ k, 1 ≤ k ∧ tags = Tag.started :: (List.replicate k Tag.updated ++ [Tag.finished])

/-! ## Helper lemmas -/

theorem updateFirst_of_none (p : Turn → Bool) (f : Turn → Turn) (l : List Turn)
    (h : ∀ t ∈ l, p t = false) : updateFirst p f l = l := by
  induction l with
  | nil => rfl
  | cons a l ih =>
      have ha : p a = false := h a (List.mem_cons_self a l)
      have ih2 := ih (fun t ht => h t (List.mem_cons_of_mem a ht))
      simp [updateFirst, ha, ih2]

theorem updateFirst_append_of_none (p : Turn → Bool) (f : Turn → Turn)
    (l1 l2 : List Turn) (h : ∀ t ∈ l1, p t = false) :
    updateFirst p f (l1 ++ l2) = l1 ++ updateFirst p f l2 := by
  induction l1 with
  | nil => rfl
  | cons a l ih =>
      have ha : p a = false := h a (List.mem_cons_self a l)
      have ih2 := ih (fun t ht => h t (List.mem_cons_of_mem a ht))
      simp [updateFirst, ha, ih2]

theorem find?_append_of_none (p : Turn → Bool) (l1 l2 : List Turn)
    (h : ∀ t ∈ l1, p t = false) : (l1 ++ l2).find? p = l2.find? p := by
  induction l1 with
  | nil => rfl
  | cons a l ih =>
      have ha : p a = false := h a (List.mem_cons_self a l)
      have ih2 := ih (fun t ht => h t (List.mem_cons_of_mem a ht))
      simp [List.find?, ha, ih2]

theorem runWS_append (s : ChatWidget) (now : Nat) (es1 es2 : List WSIncoming) :
    runWS s now (es1 ++ es2)
      = ((runWS (runWS s now es1).1 now es2).1,
         (runWS s now es1).2 ++ (runWS (runWS s now es1).1 now es2).2) := by
  induction es1 generalizing s with
  | nil => simp [runWS]
  | cons e es ih => simp [runWS, ih]

theorem chunksRun (mid : String) (cs : List String) :
    ∀ (s : ChatWidget) (now : Nat),
    (runWS s now (cs.map (WSIncoming.stream_chunk mid))).1
        = { s with currentStreamContent := s.currentStreamContent ++ concatList cs }
    ∧ (s.messages.any (fun t => t.id == mid) = true →
        ((runWS s now (cs.map (WSIncoming.stream_chunk mid))).2).map tagOf
          = List.replicate cs.length Tag.updated) := by
  induction cs with
  | nil =>
      intro s now
      refine ⟨?_, fun _ => rfl⟩
      simp [runWS, concatList, String.append_empty]
  | cons c cs ih =>
      intro s now
      have ih2 := ih { s with currentStreamContent := s.currentStreamContent ++ c } now
      constructor
      · simp only [List.map_cons, runWS, handleWSMessage]
        rw [ih2.1]
        simp [concatList, String.append_assoc]
      · intro hany
        simp only [List.map_cons, runWS, handleWSMessage, hany]
        have hany2 : ({ s with currentStreamContent := s.currentStreamContent ++ c } :
            ChatWidget).messages.any (fun t => t.id == mid) = true := hany
        simp [ih2.2 hany2, hany, List.replicate_succ, tagOf]

theorem liveRun_spec (s : ChatWidget) (now : Nat) (m : String) (cs : List String)
    (cid : Option String) (srcs : List SourceRef) (it : String)
    (hm : ∀ t ∈ s.messages, t.id ≠ m) :
    (runWS s now (liveSignals m cs cid srcs it)).1.messages
        = s.messages ++
          [{ id := m, role := .assistant, content := concatList cs
           , sources := some srcs, intent := some it, timestamp := now
           , isStreaming := false }]
    ∧ ((runWS s now (liveSignals m cs cid srcs it)).2).map tagOf
        = Tag.started :: (List.replicate cs.length Tag.updated ++ [Tag.finished]) := by
  have hbeq : ∀ t ∈ s.messages, (t.id == m) = false := by
    intro t ht
    exact beq_eq_false_iff_ne.mpr (hm t ht)
  set ph : Turn :=
    { id := m, role := .assistant, content := ""
    , sources := none, intent := none, timestamp := now, isStreaming := true } with hph
  set s1 : ChatWidget :=
    { s with isStreaming := true, currentStreamId := m
           , currentStreamContent := "", typingIndicator := false
           , messages := s.messages ++ [ph] } with hs1
  have hstep1 : handleWSMessage s now (WSIncoming.stream_start m) =
      (s1, [UiEvent.turnStarted m]) := rfl
  have hany1 : s1.messages.any (fun t => t.id == m) = true := by
    simp [hs1, hph, List.any_append]
  have hchunks := chunksRun m cs s1 now
  set s2 : ChatWidget :=
    { s1 with currentStreamContent := s1.currentStreamContent ++ concatList cs } with hs2
  have hany2 : s2.messages.any (fun t => t.id == m) = true := hany1
  have hupd : updateFirst (fun t => t.id == m)
      (fun t => { t with content := s2.currentStreamContent
                       , sources := some srcs, intent := some it
                       , isStreaming := false }) s2.messages
      = s.messages ++
        [{ id := m, role := .assistant, content := concatList cs
         , sources := some srcs, intent := some it, timestamp := now
         , isStreaming := false }] := by
    have hmsg : s2.messages = s.messages ++ [ph] := rfl
    rw [hmsg, updateFirst_append_of_none _ _ _ _ hbeq]
    have hphp : ((fun t => t.id == m) ph) = true := by simp [hph]
    simp only [updateFirst, hphp, if_true]
    simp [String.empty_append]
  constructor
  · show (runWS s now
        (WSIncoming.stream_start m ::
          (cs.map (WSIncoming.stream_chunk m) ++ [WSIncoming.stream_end m cid srcs it]))).1.messages = _
    simp only [runWS, hstep1]
    rw [runWS_append]
    simp only [hchunks.1]
    show (runWS s2 now [WSIncoming.stream_end m cid srcs it]).1.messages = _
    simp only [runWS, handleWSMessage]
    exact hupd
  · show ((runWS s now
        (WSIncoming.stream_start m ::
          (cs.map (WSIncoming.stream_chunk m) ++ [WSIncoming.stream_end m cid srcs it]))).2).map tagOf = _
    simp only [runWS, hstep1]
    rw [runWS_append]
    simp only [hchunks.1]
    have hev2 := hchunks.2 hany1
    show (([UiEvent.turnStarted m] ++
        ((runWS s1 now (cs.map (WSIncoming.stream_chunk m))).2 ++
         (runWS s2 now [WSIncoming.stream_end m cid srcs it]).2)).map tagOf) = _
    have hev3 : (runWS s2 now [WSIncoming.stream_end m cid srcs it]).2
        = [UiEvent.finalized m s2.currentStreamContent] := by
      simp only [runWS, handleWSMessage, hany2, if_true]
      rfl
    rw [hev3]
    simp [tagOf, hev2]

theorem revealGo_spec (mid T : String) :
    ∀ (rs : List Nat) (i : Nat),
    (∀ x ∈ rs, 3 ≤ x ∧ x ≤ 8) → T.length ≤ i + 3 * rs.length → i < T.length →
    ∃ evs, revealGo mid T rs i = some evs ∧
      ∃ k, evs.map tagOf = List.replicate k Tag.updated ++ [Tag.finished] ∧
        (i + 8 < T.length → 1 ≤ k) := by
  intro rs
  induction rs with
  | nil =>
      intro i _ hbound hi
      simp at hbound
      omega
  | cons r rs ih =>
      intro i hsz hbound hi
      have hr := hsz r (List.mem_cons_self r rs)
      by_cases hfin : T.length ≤ i + r
      · refine ⟨[UiEvent.finalized mid T], ?_, 0, ?_, ?_⟩
        · simp [revealGo, hfin]
        · simp [tagOf]
        · intro h8
          omega
      · have hi' : i + r < T.length := Nat.lt_of_not_le hfin
        have hbound' : T.length ≤ (i + r) + 3 * rs.length := by
          simp [List.length_cons] at hbound
          omega
        obtain ⟨evs, hsome, k, hmap, _⟩ :=
          ih (i + r) (fun x hx => hsz x (List.mem_cons_of_mem r hx)) hbound' hi'
        refine ⟨UiEvent.contentUpdate mid (T.take (i + r)) :: evs, ?_, k + 1, ?_, ?_⟩
        · simp [revealGo, hfin, hsome]
        · simp [tagOf, hmap, List.replicate_succ]
        · intro _
          omega

/-- Invariant of a shut-down connection manager: the attempt maximum
is zero, the keep-alive interval is stopped and no reconnect is
pending. -/
def Quiet (s : WSClient) : Prop :=
  s.maxReconnectAttempts = 0 ∧ s.pingActive = false ∧ s.reconnectTimeout = none

theorem stepClosed_quiet (s : WSClient) (e : ClosedEvent) (h : Quiet s) :
    Quiet (stepClosed s e).1 ∧ (stepClosed s e).2 = [] := by
  obtain ⟨hmax, hping, hrt⟩ := h
  cases e with
  | closeFired =>
      have : (stopPing { s with wsState := none }).maxReconnectAttempts
          ≤ (stopPing { s with wsState := none }).reconnectAttempts := by
        simp [stopPing, hmax]
      constructor
      · simp [stepClosed, handleClose, tryReconnect, this, Quiet, stopPing, hmax, hping, hrt]
      · simp [stepClosed, handleClose, tryReconnect, this]
  | errorFired => exact ⟨⟨hmax, hping, hrt⟩, rfl⟩
  | messageFired => exact ⟨⟨hmax, hping, hrt⟩, rfl⟩
  | pingTimer =>
      constructor
      · simp [stepClosed, pingTick, hping, Quiet, hmax, hrt]
      · simp [stepClosed, pingTick, hping]
  | reconnectTimer =>
      constructor
      · simp [stepClosed, reconnectTick, hrt, Quiet, hmax, hping]
      · simp [stepClosed, reconnectTick, hrt]

theorem runClosed_quiet (es : List ClosedEvent) :
    ∀ (s : WSClient), Quiet s → (runClosed s es).2 = [] := by
  induction es with
  | nil => intro s _; rfl
  | cons e es ih =>
      intro s h
      have h1 := stepClosed_quiet s e h
      simp [runClosed, h1.2, ih _ h1.1]

/-! ## Claim theorems -/

/-- C1: for every sequence of `stream_chunk` signals carrying the
active StreamSession's message id, delivered between the
`stream_start` and the `stream_end` for that id, the finalized
assistant Turn's content equals the concatenation of the chunks'
content fields in arrival order (and the turn carries the sources,
intent and a cleared accumulating flag). -/
theorem C1_finalized_content_is_chunk_concat
    (s : ChatWidget) (now : Nat) (m : String) (cs : List String)
    (cid : Option String) (srcs : List SourceRef) (it : String)
    (hm : ∀ t ∈ s.messages, t.id ≠ m) :
    findTurn (runWS s now (liveSignals m cs cid srcs it)).1.messages m
      = some { id := m, role := .assistant, content := concatList cs
             , sources := some srcs, intent := some it, timestamp := now
             , isStreaming := false } := by
  have h := liveRun_spec s now m cs cid srcs it hm
  have hbeq : ∀ t ∈ s.messages, ((fun t => t.id == m) t) = false := fun t ht =>
    beq_eq_false_iff_ne.mpr (hm t ht)
  rw [findTurn, h.1, find?_append_of_none _ _ _ hbeq]
  simp [List.find?]

/-- C1 witness: two chunks `"He"`, `"llo"` finalize to `"Hello"`. -/
theorem C1_witness :
    findTurn (runWS initChatWidget 0
        (liveSignals "m1" ["He", "llo"] none [] "faq")).1.messages "m1"
      = some { id := "m1", role := .assistant, content := "Hello"
             , sources := some [], intent := some "faq", timestamp := 0
             , isStreaming := false } := by
  have h := C1_finalized_content_is_chunk_concat initChatWidget 0 "m1" ["He", "llo"]
      none [] "faq" (by intro t ht; simp [initChatWidget] at ht)
  exact h.trans (by decide)

/-- C2 counterexample: a `stream_chunk` whose `message_id` (`"zz"`)
matches no StreamSession is not ignored — its content is appended to
the active accumulator, so the content later finalized for the active
turn `"m1"` becomes `"X"` instead of the `""` obtained without the
stray chunk.  This falsifies the claim that such a signal leaves the
content later finalized for any other Turn unaffected. -/
theorem C2_counterexample :
    (findTurn (runWS initChatWidget 0
        [WSIncoming.stream_start "m1", WSIncoming.stream_chunk "zz" "X",
         WSIncoming.stream_end "m1" none [] "faq"]).1.messages "m1").map Turn.content
      = some "X"
    ∧ (findTurn (runWS initChatWidget 0
        [WSIncoming.stream_start "m1",
         WSIncoming.stream_end "m1" none [] "faq"]).1.messages "m1").map Turn.content
      = some "" := by
  decide

/-- C2 (amended): a `stream_chunk` or `stream_end` whose `message_id`
matches no existing Turn creates no new Turn and raises no fault, but
it is not inert: the chunk's content is appended to the active
accumulator regardless of its id (so it does affect the content later
finalized for the active Turn), and an unmatched `stream_end` still
clears the controller's streaming flag and re-enables input while
leaving the Turn list unchanged. -/
theorem C2_unmatched_id_behavior :
    (∀ (s : ChatWidget) (now : Nat) (mid c : String),
        (handleWSMessage s now (WSIncoming.stream_chunk mid c)).1.messages = s.messages
      ∧ (handleWSMessage s now (WSIncoming.stream_chunk mid c)).1.currentStreamContent
          = s.currentStreamContent ++ c)
    ∧ (∀ (s : ChatWidget) (now : Nat) (mid : String) (cid : Option String)
          (srcs : List SourceRef) (it : String),
        (∀ t ∈ s.messages, t.id ≠ mid) →
        (handleWSMessage s now (WSIncoming.stream_end mid cid srcs it)).1.messages
            = s.messages
      ∧ (handleWSMessage s now (WSIncoming.stream_end mid cid srcs it)).1.isStreaming
          = false
      ∧ (handleWSMessage s now (WSIncoming.stream_end mid cid srcs it)).1.inputDisabled
          = false) := by
  constructor
  · intro s now mid c
    exact ⟨rfl, rfl⟩
  · intro s now mid cid srcs it hm
    have hbeq : ∀ t ∈ s.messages, ((fun t => t.id == mid) t) = false := fun t ht =>
      beq_eq_false_iff_ne.mpr (hm t ht)
    refine ⟨?_, rfl, rfl⟩
    simp only [handleWSMessage]
    exact updateFirst_of_none _ _ _ hbeq

/-- C2 amended-claim witness at concrete inputs. -/
theorem C2_unmatched_id_behavior_witness :
    (handleWSMessage initChatWidget 0 (WSIncoming.stream_chunk "zz" "X")).1.messages = []
    ∧ (handleWSMessage initChatWidget 0
        (WSIncoming.stream_end "zz" none [] "faq")).1.messages = [] := by
  have h := C2_unmatched_id_behavior
  have h1 := (h.1 initChatWidget 0 "zz" "X").1
  have h2 := (h.2 initChatWidget 0 "zz" none [] "faq"
      (by intro t ht; simp [initChatWidget] at ht)).1
  exact ⟨h1, h2⟩

/-- C3 counterexample: after a submission and a `stream_start`, an
`error` signal does not replace the placeholder Turn's content or
clear its accumulating flag, and does not clear the StreamSession's
turn id; instead a second assistant Turn is appended, so the
submission ends with two assistant Turns. -/
theorem C3_counterexample :
    ((runWS (sendMessage initChatWidget 1 "hi" true).1 7
        [WSIncoming.stream_start "m1", WSIncoming.error "boom"]).1.messages.map
      (fun t => (t.role, t.content, t.isStreaming)))
      = [(Role.user, "hi", false), (Role.assistant, "", true),
         (Role.assistant, "boom", false)]
    ∧ (runWS (sendMessage initChatWidget 1 "hi" true).1 7
        [WSIncoming.stream_start "m1", WSIncoming.error "boom"]).1.currentStreamId
      = "m1" := by
  decide

/-- C3 (amended): on an `error` signal the controller clears its busy
flag, removes the typing indicator, re-enables input and appends one
new assistant Turn carrying the error text; the placeholder Turn is
left untouched (its content and accumulating flag are not changed)
and the stream accumulator fields are not cleared. -/
theorem C3_error_appends_new_turn (s : ChatWidget) (now : Nat) (msg : String) :
    (handleWSMessage s now (WSIncoming.error msg)).1.messages
        = s.messages ++
          [{ id := toString now, role := .assistant, content := msg
           , sources := none, intent := none, timestamp := now
           , isStreaming := false }]
    ∧ (handleWSMessage s now (WSIncoming.error msg)).1.isStreaming = false
    ∧ (handleWSMessage s now (WSIncoming.error msg)).1.inputDisabled = false
    ∧ (handleWSMessage s now (WSIncoming.error msg)).1.typingIndicator = false
    ∧ (handleWSMessage s now (WSIncoming.error msg)).1.currentStreamId
        = s.currentStreamId
    ∧ (handleWSMessage s now (WSIncoming.error msg)).1.currentStreamContent
        = s.currentStreamContent := by
  exact ⟨rfl, rfl, rfl, rfl, rfl, rfl⟩

/-- A reachable `Open` connection-manager state: a fresh client after
`connect()` and the `onopen` handshake. -/
def wsAfterOpen : WSClient := handleOpen (connect initWSClient).1

/-- C4 counterexample: `connect()` is not idempotent.  From the
reachable `Open` state it opens a new transport and changes the state,
and after `disconnect()` a direct `connect()` call also opens a new
transport — the source has no state guard in `connect`. -/
theorem C4_counterexample :
    wsAfterOpen.wsState = some ReadyState.opened
    ∧ (connect wsAfterOpen).2 = [WSEffect.opened_socket]
    ∧ (connect wsAfterOpen).1 ≠ wsAfterOpen
    ∧ (connect (disconnect wsAfterOpen)).2 = [WSEffect.opened_socket] := by
  decide

/-- C4 (amended): `connect()` unconditionally opens a new transport
and moves to `Connecting`, even when the state is already `Connecting`
or `Open` and even after `disconnect()`; what `disconnect()` does
suppress is only the automatic reconnection path, since
`tryReconnect` schedules nothing once the attempt maximum is zero. -/
theorem C4_connect_always_opens (s : WSClient) :
    ((s.wsState = some ReadyState.connecting ∨ s.wsState = some ReadyState.opened) →
      (connect s).1.socketsOpened = s.socketsOpened + 1
      ∧ (connect s).1.wsState = some ReadyState.connecting
      ∧ (connect s).2 = [WSEffect.opened_socket])
    ∧ (connect (disconnect s)).1.socketsOpened = s.socketsOpened + 1
    ∧ tryReconnect (disconnect s) = (disconnect s, []) := by
  refine ⟨fun _ => ⟨rfl, rfl, rfl⟩, rfl, ?_⟩
  simp [tryReconnect, disconnect]

/-- C4 amended-claim witness at the reachable `Open` state. -/
theorem C4_connect_always_opens_witness :
    (connect wsAfterOpen).1.socketsOpened = wsAfterOpen.socketsOpened + 1
    ∧ tryReconnect (disconnect wsAfterOpen) = (disconnect wsAfterOpen, []) := by
  have h := C4_connect_always_opens wsAfterOpen
  exact ⟨(h.1 (Or.inr (by decide))).1, h.2.2⟩

/-- C5: `disconnect()` zeroes the reconnect-attempt maximum, stops the
keep-alive, cancels any pending reconnect timer and closes the
transport; across every sequence of events a closed transport can
still deliver (residual close / error / message callbacks and timer
fires), no keep-alive ping is ever sent and no reconnect attempt is
ever scheduled. -/
theorem C5_disconnect_is_terminal (s : WSClient) (es : List ClosedEvent) :
    (disconnect s).maxReconnectAttempts = 0
    ∧ (disconnect s).pingActive = false
    ∧ (disconnect s).reconnectTimeout = none
    ∧ (disconnect s).wsState = none
    ∧ WSEffect.sent_ping ∉ (runClosed (disconnect s) es).2
    ∧ (∀ d, WSEffect.scheduled_reconnect d ∉ (runClosed (disconnect s) es).2) := by
  have hq : Quiet (disconnect s) := ⟨rfl, rfl, rfl⟩
  have h := runClosed_quiet es (disconnect s) hq
  refine ⟨rfl, rfl, rfl, rfl, ?_, ?_⟩
  · rw [h]
    simp
  · intro d
    rw [h]
    simp

/-- C5 witness: no ping and no reconnect scheduling across a concrete
post-shutdown event sequence from the reachable `Open` state. -/
theorem C5_witness :
    WSEffect.sent_ping ∉
      (runClosed (disconnect (handleOpen (connect initWSClient).1))
        [ClosedEvent.closeFired, ClosedEvent.pingTimer,
         ClosedEvent.reconnectTimer, ClosedEvent.messageFired]).2
    ∧ WSEffect.scheduled_reconnect 1000 ∉
      (runClosed (disconnect (handleOpen (connect initWSClient).1))
        [ClosedEvent.closeFired, ClosedEvent.pingTimer,
         ClosedEvent.reconnectTimer, ClosedEvent.messageFired]).2 := by
  have h := C5_disconnect_is_terminal (handleOpen (connect initWSClient).1)
      [ClosedEvent.closeFired, ClosedEvent.pingTimer,
       ClosedEvent.reconnectTimer, ClosedEvent.messageFired]
  exact ⟨h.2.2.2.2.1, h.2.2.2.2.2 1000⟩

/-- C6: for reconnect attempt `N` (`1 ≤ N ≤ 5`, counter `N - 1`
before the call, maximum at its default 5) the scheduled backoff delay
is `min(1000 * 2 ^ (N-1), 30000)` ms and the counter becomes `N`;
once the counter reaches the maximum no further attempt is scheduled;
and a successful open resets the counter to 0. -/
theorem C6_backoff_formula (s : WSClient) (N : Nat)
    (h1 : 1 ≤ N) (h2 : N ≤ 5)
    (h3 : s.reconnectAttempts = N - 1) (h4 : s.maxReconnectAttempts = 5) :
    (tryReconnect s).2
        = [WSEffect.scheduled_reconnect (min (1000 * 2 ^ (N - 1)) 30000)]
    ∧ (tryReconnect s).1.reconnectAttempts = N
    ∧ (∀ s2 : WSClient, s2.maxReconnectAttempts ≤ s2.reconnectAttempts →
        tryReconnect s2 = (s2, []))
    ∧ (∀ s3 : WSClient, (handleOpen s3).reconnectAttempts = 0)
    ∧ initWSClient.maxReconnectAttempts = 5 := by
  have hlt : ¬ (s.maxReconnectAttempts ≤ s.reconnectAttempts) := by omega
  refine ⟨?_, ?_, ?_, fun s3 => rfl, rfl⟩
  · simp only [tryReconnect]
    rw [if_neg hlt]
    simp [h3]
  · simp only [tryReconnect]
    rw [if_neg hlt]
    simp
    omega
  · intro s2 hle
    simp [tryReconnect, hle]

/-- C6 witness: third attempt from counter 2 schedules a 4000 ms
delay and moves the counter to 3. -/
theorem C6_backoff_formula_witness :
    (tryReconnect { initWSClient with reconnectAttempts := 2 }).2
        = [WSEffect.scheduled_reconnect 4000]
    ∧ (tryReconnect { initWSClient with reconnectAttempts := 2 }).1.reconnectAttempts
        = 3 := by
  have h := C6_backoff_formula { initWSClient with reconnectAttempts := 2 } 3
      (by decide) (by decide) (by decide) (by decide)
  exact ⟨h.1.trans (by decide), h.2.1⟩

/-- A fallback response used to reach a mid-fallback state. -/
def fallbackResponse : RestResponse :=
  { conversation_id := "c1", message_id := some "m1", content := "Hello world"
  , sources := some [], intent := some "faq" }

/-- Reachable state in the middle of a fallback submission: the user
turn was appended by `sendMessage` (transport not open), the response
arrived and `sendViaRest` appended the accumulating placeholder; the
simulated reveal has not finished. -/
def midFallbackState : ChatWidget :=
  restStart (sendMessage initChatWidget 1 "hi" false).1 2 fallbackResponse

/-- C7 counterexample: in the reachable mid-fallback state an
assistant Turn is still accumulating (a StreamSession is active on the
fallback path), yet the controller's streaming flag is false, so a
submit call is not rejected: it appends a new user Turn and issues a
second fallback request. -/
theorem C7_counterexample :
    midFallbackState.messages.map (fun t => (t.role, t.isStreaming))
        = [(Role.user, false), (Role.assistant, true)]
    ∧ midFallbackState.isStreaming = false
    ∧ (sendMessage midFallbackState 3 "tekrar" false).1.messages.length = 3
    ∧ (sendMessage midFallbackState 3 "tekrar" false).2
        = some (OutRequest.restRequest "tekrar" (some "c1")) := by
  decide

/-- C7 (amended): a submit while the live-path streaming flag is set
is rejected — no Turn, no transport send, no fallback request; but the
fallback path never sets that flag, so whenever the flag is clear a
submit with nonblank text goes through (appending a user Turn and
issuing a request) even if a fallback delivery is still in progress —
during fallback only the disabled input prevents concurrent
submission. -/
theorem C7_submit_rejection (s : ChatWidget) (now : Nat) (raw : String) (conn : Bool) :
    (s.isStreaming = true → sendMessage s now raw conn = (s, none))
    ∧ (s.isStreaming = false → trimWs raw ≠ "" →
        (sendMessage s now raw conn).1.messages.length = s.messages.length + 1
        ∧ ((sendMessage s now raw conn).2).isSome = true) := by
  constructor
  · intro hs
    simp [sendMessage, hs]
  · intro hs hraw
    cases conn <;> simp [sendMessage, hs, hraw]

/-- C7 amended-claim witness: a busy-flagged submit is a no-op, and a
clear-flagged submit appends a turn. -/
theorem C7_submit_rejection_witness :
    sendMessage { initChatWidget with isStreaming := true } 3 "hi" true
        = ({ initChatWidget with isStreaming := true }, none)
    ∧ (sendMessage initChatWidget 3 "hi" true).1.messages.length = 1 := by
  have h1 := (C7_submit_rejection { initChatWidget with isStreaming := true }
      3 "hi" true).1 rfl
  have h2 := (C7_submit_rejection initChatWidget 3 "hi" true).2 rfl (by decide)
  exact ⟨h1, h2.1.trans (by decide)⟩

/-- C9 counterexample: a non-success response whose JSON body parses
is not caught — `sendViaRest` never checks `response.ok`, so the
response takes the success path: its body content `"oops"` is
delivered as an ordinary finalized assistant Turn, its conversation id
is stored, and no Turn with the apology text is ever created.  This
falsifies the claim that every non-success response is converted into
one synthetic apology Turn. -/
theorem C9_counterexample :
    (sendViaRest initChatWidget 0 [5]
        (FetchOutcome.response false (some nonSuccessBody))).map
      (fun p => (p.1.messages.map (fun t => (t.role, t.content, t.isStreaming)),
                 p.1.conversationId, p.1.inputDisabled))
      = some ([(Role.assistant, "oops", false)], "c1", false)
    ∧ (sendViaRest initChatWidget 0 [5]
        (FetchOutcome.response false (some nonSuccessBody))).map
      (fun p => p.1.messages.any (fun t => t.content == apologyText))
      = some false := by
  decide

/-- C9 (amended): a fallback request whose fetch rejects (network
error) or whose response body fails to parse is caught locally and
converted into exactly one synthetic assistant Turn with the fixed
localized apology text, with the typing indicator removed, input
re-enabled and no automatic retry; but a non-success HTTP response
with a valid JSON body is not treated as a failure — the source never
checks `response.ok`, so such a response takes the success path
unchanged. -/
theorem C9_fallback_failure_dispatch :
    (∀ (s : ChatWidget) (now : Nat) (sizes : List Nat) (o : FetchOutcome),
        (o = FetchOutcome.networkError ∨ (∃ ok, o = FetchOutcome.response ok none)) →
        sendViaRest s now sizes o
          = some ({ s with typingIndicator := false
                         , messages := s.messages ++ [apologyTurn now]
                         , inputDisabled := false }, [])
        ∧ (apologyTurn now).content = apologyText
        ∧ (sendViaRestFailure s now).2 = [])
    ∧ (∀ (s : ChatWidget) (now : Nat) (sizes : List Nat) (ok : Bool) (r : RestResponse),
        sendViaRest s now sizes (FetchOutcome.response ok (some r))
          = sendViaRestSuccess s now r sizes) := by
  constructor
  · intro s now sizes o ho
    rcases ho with h | ⟨ok, h⟩ <;> subst h <;> exact ⟨rfl, rfl, rfl⟩
  · intro s now sizes ok r
    rfl

/-- C9 amended-claim witness: a network error yields exactly the one
apology Turn with input re-enabled. -/
theorem C9_fallback_failure_dispatch_witness :
    sendViaRest initChatWidget 3 [5] FetchOutcome.networkError
      = some ({ initChatWidget with messages := [apologyTurn 3] }, [])
    ∧ (apologyTurn 3).content = apologyText := by
  have h := (C9_fallback_failure_dispatch.1 initChatWidget 3 [5]
      FetchOutcome.networkError (Or.inl rfl))
  exact ⟨h.1.trans (by decide), h.2.1⟩

/-- C10: a submit whose text is empty or whitespace-only is a complete
no-op — the state is returned unchanged and no request is issued on
either path. -/
theorem C10_blank_submit_is_noop (s : ChatWidget) (now : Nat) (raw : String)
    (conn : Bool) (h : trimWs raw = "") :
    sendMessage s now raw conn = (s, none) := by
  simp [sendMessage, h]

/-- C10 witness: three spaces trim to empty and submit is a no-op. -/
theorem C10_blank_submit_is_noop_witness :
    sendMessage initChatWidget 5 "   " true = (initChatWidget, none)
    ∧ trimWs "   " = "" :=
  ⟨C10_blank_submit_is_noop initChatWidget 5 "   " true (by decide), by decide⟩

/-- C8: a fallback-path submission and a live-path submission that
both yield the response text `"Hello world"` produce byte-identical
final Turn content and the same event-sequence shape — a start, one or
more content updates, then a finalize; the fallback reveal consumes
random increments of 3 to 8 characters per tick, and the fallback
response's conversation identifier is stored for subsequent
submissions. -/
theorem C8_path_equivalence
    (s s2 : ChatWidget) (now now2 : Nat) (m : String) (cs : List String)
    (cid : Option String) (srcs : List SourceRef) (it : String)
    (r : RestResponse) (rs : List Nat)
    (hm : ∀ t ∈ s.messages, t.id ≠ m)
    (hcs : concatList cs = "Hello world")
    (hr : r.content = "Hello world")
    (hm2 : ∀ t ∈ s2.messages, t.id ≠ restMsgId now2 r)
    (hrs : ∀ x ∈ rs, 3 ≤ x ∧ x ≤ 8)
    (hlen : 4 ≤ rs.length) :
    (findTurn (runWS s now (liveSignals m cs cid srcs it)).1.messages m).map Turn.content
        = some "Hello world"
    ∧ goodShape (((runWS s now (liveSignals m cs cid srcs it)).2).map tagOf)
    ∧ ∃ sF evs, sendViaRestSuccess s2 now2 r rs = some (sF, evs)
        ∧ (findTurn sF.messages (restMsgId now2 r)).map Turn.content = some "Hello world"
        ∧ goodShape (evs.map tagOf)
        ∧ sF.conversationId = r.conversation_id := by
  have hlive := liveRun_spec s now m cs cid srcs it hm
  have hbeq : ∀ t ∈ s.messages, ((fun t => t.id == m) t) = false := fun t ht =>
    beq_eq_false_iff_ne.mpr (hm t ht)
  have hcs1 : 1 ≤ cs.length := by
    cases cs with
    | nil => exact absurd hcs (by decide)
    | cons c cs => exact Nat.succ_le_succ (Nat.zero_le _)
  have hTlen : r.content.length = 11 := by
    rw [hr]
    decide
  have h0 : (0 : Nat) < r.content.length := by omega
  have hbound : r.content.length ≤ 0 + 3 * rs.length := by omega
  obtain ⟨evs1, hsome, k, hmap, h1k⟩ :=
    revealGo_spec (restMsgId now2 r) r.content rs 0 hrs hbound h0
  have hk : 1 ≤ k := h1k (by omega)
  have hsvr : sendViaRestSuccess s2 now2 r rs
      = some (restFinish (restStart s2 now2 r) r (restMsgId now2 r),
              UiEvent.turnStarted (restMsgId now2 r) :: evs1) := by
    simp [sendViaRestSuccess, hsome]
  have hbeq2 : ∀ t ∈ s2.messages,
      ((fun t => t.id == restMsgId now2 r) t) = false := fun t ht =>
    beq_eq_false_iff_ne.mpr (hm2 t ht)
  have hmsgF : (restFinish (restStart s2 now2 r) r (restMsgId now2 r)).messages
      = s2.messages ++
        [{ id := restMsgId now2 r, role := .assistant, content := r.content
         , sources := r.sources, intent := r.intent, timestamp := now2
         , isStreaming := false }] := by
    show updateFirst _ _ (restStart s2 now2 r).messages = _
    have hrm : (restStart s2 now2 r).messages
        = s2.messages ++
          [{ id := restMsgId now2 r, role := .assistant, content := ""
           , sources := none, intent := none, timestamp := now2
           , isStreaming := true }] := rfl
    rw [hrm, updateFirst_append_of_none _ _ _ _ hbeq2]
    simp [updateFirst]
  refine ⟨?_, ?_, restFinish (restStart s2 now2 r) r (restMsgId now2 r),
      UiEvent.turnStarted (restMsgId now2 r) :: evs1, hsvr, ?_, ?_, ?_⟩
  · rw [findTurn, hlive.1, find?_append_of_none _ _ _ hbeq]
    simp [List.find?, hcs]
  · rw [hlive.2]
    exact ⟨cs.length, hcs1, rfl⟩
  · rw [findTurn, hmsgF, find?_append_of_none _ _ _ hbeq2]
    simp [List.find?, hr]
  · show goodShape ((UiEvent.turnStarted (restMsgId now2 r) :: evs1).map tagOf)
    refine ⟨k, hk, ?_⟩
    simp [tagOf, hmap]
  · rfl

/-- C8 witness: live chunks `"Hello "`, `"world"` and a fallback
response `"Hello world"` revealed in increments of 5. -/
theorem C8_path_equivalence_witness :
    (findTurn (runWS initChatWidget 0
        (liveSignals "m1" ["Hello ", "world"] (some "c1") [] "faq")).1.messages "m1").map
      Turn.content = some "Hello world"
    ∧ goodShape (((runWS initChatWidget 0
        (liveSignals "m1" ["Hello ", "world"] (some "c1") [] "faq")).2).map tagOf)
    ∧ ∃ sF evs, sendViaRestSuccess initChatWidget 0 fallbackResponse [5, 5, 5, 5]
          = some (sF, evs)
        ∧ (findTurn sF.messages (restMsgId 0 fallbackResponse)).map Turn.content
            = some "Hello world"
        ∧ goodShape (evs.map tagOf)
        ∧ sF.conversationId = fallbackResponse.conversation_id := by
  exact C8_path_equivalence initChatWidget initChatWidget 0 0 "m1"
      ["Hello ", "world"] (some "c1") [] "faq" fallbackResponse [5, 5, 5, 5]
      (by intro t ht; simp [initChatWidget] at ht) (by decide) (by decide)
      (by intro t ht; simp [initChatWidget] at ht) (by decide) (by decide)
